import Mathlib

/-!
Verification of the Proctoria real-time proctoring core: a shallow embedding
of the violation ingestion, classification, batch risk-aggregation and
room-based broadcast subsystem (websocket-service), together with the
risk-score function of the database layer, the admin bulk/screenshot
handlers and the session cleanup sweep.

Conventions of the embedding:
- JavaScript numbers are modelled as rationals; non-integer literals are
  written with mkRat (0.9 becomes mkRat 9 10) so that concrete comparisons
  reduce in the kernel.
- Epoch-millisecond timestamps are integers.
- A socket.io emission (io.to(room).emit(event, payload) or
  socket.emit(event, payload)) is modelled as an Emission record carrying
  its target, the event name, the sessionId field of the payload when the
  payload has one, and the delay in milliseconds at which it is scheduled
  (0 for immediate emissions, 30000 for the screenshot timeout callback).
- Fields that may be absent (undefined) on an incoming object are Options;
  JavaScript truthiness of such a field is modelled by the jsTruthy*
  functions (absent, empty-string, and zero values are falsy).
-/

set_option maxRecDepth 4000

/-- Destination of a socket.io emission: a named room or a single socket. -/
inductive Target where
  | room : String → Target
  | socket : String → Target
deriving DecidableEq

/-- One socket.io emission: target, event name, the sessionId carried in the
payload (when the payload has such a field), and scheduling delay in ms. -/
structure Emission where
  target : Target
  event : String
  payloadSessionId : Option String
  delayMs : Nat
deriving DecidableEq

/-! ### Severity derivation
From websocket-service/src/handlers/violationHandler.js, getAlertSeverity. -/

/-- Violation types listed as critical in getAlertSeverity. -/
def criticalViolations : List String :=
  ["multiple_faces", "identity_mismatch", "copy_paste", "developer_tools"]

/-- Violation types listed as high in getAlertSeverity. -/
def highViolations : List String :=
  ["face_not_detected", "phone_detected", "tab_switch", "suspicious_audio"]

/-- Violation types listed as medium in getAlertSeverity. -/
def mediumViolations : List String :=
  ["gaze_deviation", "poor_posture", "window_focus_lost"]

/-- getAlertSeverity(type, confidence) of violationHandler.js. -/
def getAlertSeverity (vtype : String) (confidence : ℚ) : String :=
  if criticalViolations.contains vtype || decide (mkRat 9 10 ≤ confidence) then "critical"
  else if highViolations.contains vtype || decide (mkRat 7 10 ≤ confidence) then "high"
  else if mediumViolations.contains vtype || decide (mkRat 5 10 ≤ confidence) then "medium"
  else "low"

/-- The severity derivation as the specification words it: critical if the
type is in the critical set or confidence at least 0.9; else high if in the
high set or confidence at least 0.7; else medium if in the medium set or
confidence at least 0.5; else low (the default bucket for unknown types). -/
def severitySpecification (vtype : String) (confidence : ℚ) : String :=
  if vtype ∈ criticalViolations ∨ mkRat 9 10 ≤ confidence then "critical"
  else if vtype ∈ highViolations ∨ mkRat 7 10 ≤ confidence then "high"
  else if vtype ∈ mediumViolations ∨ mkRat 5 10 ≤ confidence then "medium"
  else "low"

/-! ### Behavior classifier
From violationHandler.js, analyzeBehavior: a switch on the event type. -/

/-- Payload of a behavior event (the fields analyzeBehavior reads). -/
structure BehaviorEventData where
  context : Option String
  keys : List String
deriving DecidableEq

/-- A behavior event as built by handleBehaviorEvent. -/
structure BehaviorEvent where
  sessionId : String
  userId : String
  eventType : String
  eventData : BehaviorEventData
deriving DecidableEq

/-- A violation produced by the classifier (before queueing). -/
structure DetectedViolation where
  type : String
  confidence : ℚ
  details : String
deriving DecidableEq

/-- analyzeBehavior of violationHandler.js: the switch over eventType. -/
def analyzeBehavior (e : BehaviorEvent) : List DetectedViolation :=
  if e.eventType = "tab_switch" then
    [⟨"tab_switch", mkRat 9 10, "Student switched browser tabs"⟩]
  else if e.eventType = "copy_paste" then
    [⟨"copy_paste", mkRat 95 100, "Copy-paste activity detected"⟩]
  else if e.eventType = "right_click" then
    if e.eventData.context = some "text_selection" then
      [⟨"suspicious_interaction", mkRat 6 10, "Right-click on text detected"⟩]
    else []
  else if e.eventType = "key_combination" then
    if e.eventData.keys.contains "ctrl"
        && (e.eventData.keys.contains "c" || e.eventData.keys.contains "v") then
      [⟨"copy_paste_shortcut", mkRat 8 10, "Copy/paste keyboard shortcut detected"⟩]
    else []
  else if e.eventType = "window_blur" then
    [⟨"window_focus_lost", mkRat 7 10, "Browser window lost focus"⟩]
  else if e.eventType = "fullscreen_exit" then
    [⟨"fullscreen_violation", mkRat 8 10, "Student exited fullscreen mode"⟩]
  else []

/-- The classifier table as the specification words it, reduced to the
confidences of the violations emitted per event kind. -/
def classifierConfidenceTable (e : BehaviorEvent) : List ℚ :=
  if e.eventType = "tab_switch" then [mkRat 9 10]
  else if e.eventType = "copy_paste" then [mkRat 95 100]
  else if e.eventType = "key_combination" ∧ "ctrl" ∈ e.eventData.keys
      ∧ ("c" ∈ e.eventData.keys ∨ "v" ∈ e.eventData.keys) then [mkRat 8 10]
  else if e.eventType = "window_blur" then [mkRat 7 10]
  else if e.eventType = "fullscreen_exit" then [mkRat 8 10]
  else if e.eventType = "right_click" ∧ e.eventData.context = some "text_selection" then
    [mkRat 6 10]
  else []

/-! ### Violation validation and ingestion
From violationHandler.js, validateViolation and handleViolationDetected. -/

/-- The violation object handleViolationDetected builds; any field coming
from the socket context or the client payload may be absent. -/
structure IncomingViolation where
  sessionId : Option String
  userId : Option String
  type : Option String
  confidence : Option ℚ
  details : Option String
  timestamp : Option ℤ
deriving DecidableEq

/-- JavaScript truthiness of a possibly-absent string field:
undefined and the empty string are falsy. -/
def jsTruthyString : Option String → Bool
  | none => false
  | some s => !(s == "")

/-- JavaScript truthiness of a possibly-absent numeric field:
undefined and 0 are falsy. -/
def jsTruthyRat : Option ℚ → Bool
  | none => false
  | some c => !(c == 0)

/-- JavaScript truthiness of a possibly-absent integer timestamp:
undefined and 0 are falsy. -/
def jsTruthyInt : Option ℤ → Bool
  | none => false
  | some t => !(t == 0)

/-- The range test of validateViolation: confidence < 0 or confidence > 1
rejects (on an absent confidence both comparisons are false in JavaScript). -/
def confidenceInRange : Option ℚ → Bool
  | none => true
  | some c => !(decide (c < 0) || decide (1 < c))

/-- validateViolation of violationHandler.js: every required field must be
truthy, then the confidence must lie in [0, 1]. -/
def validateViolation (v : IncomingViolation) : Bool :=
  jsTruthyString v.sessionId && jsTruthyString v.userId && jsTruthyString v.type
    && jsTruthyRat v.confidence && jsTruthyInt v.timestamp
    && confidenceInRange v.confidence

/-- sendViolationAlert of violationHandler.js: the alert to the student
socket, plus a popup when the derived severity is high or critical. -/
def sendViolationAlert (studentConn : String) (vtype : String) (confidence : ℚ) :
    List Emission :=
  [⟨Target.socket studentConn, "violation_alert", none, 0⟩]
    ++ (if getAlertSeverity vtype confidence == "high"
          || getAlertSeverity vtype confidence == "critical" then
          [⟨Target.socket studentConn, "warning_popup", none, 0⟩]
        else [])

/-- notifyAdmins of violationHandler.js: every violation is sent to the
admin_monitoring room, with a second emergency emission when critical. -/
def notifyAdmins (sid : String) (vtype : String) (confidence : ℚ) : List Emission :=
  [⟨Target.room "admin_monitoring", "violation_notification", some sid, 0⟩]
    ++ (if getAlertSeverity vtype confidence == "critical" then
          [⟨Target.room "admin_monitoring", "critical_violation", some sid, 0⟩]
        else [])

/-- The full broadcast of one accepted violation: the student alert followed
by the admin notifications, as handleViolationDetected performs them. -/
def broadcastViolation (studentConn sid vtype : String) (confidence : ℚ) : List Emission :=
  sendViolationAlert studentConn vtype confidence ++ notifyAdmins sid vtype confidence

/-- addToQueue of violationHandler.js: the violation is appended to the
processing queue (the generated key only serves as a unique id). -/
def addToQueue (queue : List IncomingViolation) (v : IncomingViolation) :
    List IncomingViolation :=
  queue ++ [v]

/-- handleViolationDetected of violationHandler.js, as a transition on the
queue returning the emissions performed: an invalid violation produces one
error emission to the reporting socket and leaves the queue untouched; a
valid one is queued and broadcast. -/
def handleViolationDetected (studentConn : String) (queue : List IncomingViolation)
    (v : IncomingViolation) : List IncomingViolation × List Emission :=
  if validateViolation v then
    (addToQueue queue v,
      broadcastViolation studentConn (v.sessionId.getD "") (v.type.getD "")
        (v.confidence.getD 0))
  else
    (queue, [⟨Target.socket studentConn, "error", none, 0⟩])

/-! ### Batch aggregation tick
From violationHandler.js, processViolationQueue / processSessionViolations /
flagSession. The drained queue is grouped by session id (a reduce into an
object keyed by sessionId, so keys appear in first-arrival order and each
group keeps arrival order); each group with at least two critical violations
flags its session once. -/

/-- A violation as it sits in the queue (validated, all fields present). -/
structure QueuedViolation where
  sessionId : String
  userId : String
  type : String
  confidence : ℚ
  timestamp : ℤ
deriving DecidableEq

/-- The riskIncrement computed (and only logged towards the store) in
processSessionViolations: sum of confidence times 0.1. -/
def riskIncrement (violations : List QueuedViolation) : ℚ :=
  violations.foldl (fun sum v => sum + v.confidence * mkRat 1 10) 0

/-- flagSession of violationHandler.js: one session_flagged emission to the
admin_monitoring room (payload carries the sessionId) and one to the
own room of the session (payload is only a message). -/
def flagSession (sid : String) : List Emission :=
  [⟨Target.room "admin_monitoring", "session_flagged", some sid, 0⟩,
   ⟨Target.room ("session_" ++ sid), "session_flagged", none, 0⟩]

/-- The filter of processSessionViolations selecting the violations whose
derived severity is critical. -/
def criticalViolationsOf (violations : List QueuedViolation) : List QueuedViolation :=
  violations.filter (fun v => getAlertSeverity v.type v.confidence == "critical")

/-- processSessionViolations of violationHandler.js, restricted to its
emissions: the session is flagged when its drained group holds at least two
critical violations (the store call is fire-and-forget and emits nothing). -/
def processSessionViolations (sid : String) (violations : List QueuedViolation) :
    List Emission :=
  if 2 ≤ (criticalViolationsOf violations).length then flagSession sid else []

/-- One step of the reduce that groups the drained queue by session id:
a new session id is appended to the key list, in first-arrival order. -/
def addSessionKey (ks : List String) (sid : String) : List String :=
  if ks.contains sid then ks else ks ++ [sid]

/-- The session ids of the drained batch, in first-arrival order, without
duplicates (the keys of the sessionGroups object). -/
def sessionKeys (queue : List QueuedViolation) : List String :=
  queue.foldl (fun ks v => addSessionKey ks v.sessionId) []

/-- The group of one session in the drained batch, in arrival order (the
value the grouping reduce builds for that key). -/
def sessionGroup (queue : List QueuedViolation) (sid : String) : List QueuedViolation :=
  queue.filter (fun v => v.sessionId == sid)

/-- processViolationQueue of violationHandler.js, restricted to its
emissions: the drained batch is grouped by session and the group of each
session is processed once. -/
def processViolationQueue (queue : List QueuedViolation) : List Emission :=
  (sessionKeys queue).flatMap (fun sid => processSessionViolations sid (sessionGroup queue sid))

/-! ### Stored risk score
From db/init/01-init-database.sql, calculate_risk_score: the authoritative
per-session risk score, recomputed from the violation set of a session by the
database trigger whenever the websocket service posts a recalculation. -/

/-- The severity enum of the violations table. -/
inductive DbSeverity where
  | critical
  | high
  | medium
  | low
deriving DecidableEq

/-- A stored violation row, reduced to the columns the score reads. -/
structure DbViolation where
  confidence : ℚ
  severity : DbSeverity
deriving DecidableEq

/-- The per-severity weight of calculate_risk_score (0.4 / 0.3 / 0.2 / 0.1). -/
def severityWeight : DbSeverity → ℚ
  | DbSeverity.critical => mkRat 4 10
  | DbSeverity.high => mkRat 3 10
  | DbSeverity.medium => mkRat 2 10
  | DbSeverity.low => mkRat 1 10

/-- calculate_risk_score of 01-init-database.sql: loop-accumulate
confidence times the severity weight, then cap at 1.0. -/
def calculate_risk_score (violations : List DbViolation) : ℚ :=
  let total := violations.foldl (fun t v => t + v.confidence * severityWeight v.severity) 0
  if 1 < total then 1 else total

/-! ### Admin bulk action
From the admin handler (src/unnamed/part_001), handleBulkAction: items are
processed sequentially, each in its own try/catch, and one result per
session id is pushed. The three backend helpers are modelled by one oracle
taking the action name and the session id. -/

/-- One per-item result entry of the bulk action. -/
structure BulkItemResult where
  sessionId : String
  status : String
  result : Option String
  error : Option String
deriving DecidableEq

/-- The body of one bulk-action iteration before its catch: the switch over
the action name, with an unknown action raising an error. -/
def performBulkItem (backend : String → String → Except String String)
    (action : String) (sid : String) : Except String String :=
  if action == "send_message" || action == "terminate" || action == "flag" then
    backend action sid
  else
    Except.error ("Unknown bulk action: " ++ action)

/-- handleBulkAction of the admin handler: sequential map over the session
ids, the failure of one item caught and recorded as its own error entry. -/
def handleBulkAction (backend : String → String → Except String String)
    (action : String) (sessionIds : List String) : List BulkItemResult :=
  sessionIds.map (fun sid =>
    match performBulkItem backend action sid with
    | Except.ok r => ⟨sid, "success", some r, none⟩
    | Except.error e => ⟨sid, "error", none, some e⟩)

/-- A concrete backend for the scenario of the specification: every session id
succeeds except sB, which fails. -/
def demoBulkBackend : String → String → Except String String :=
  fun _ sid => if sid == "sB" then Except.error "Session not found" else Except.ok "done"

/-! ### Screenshot request
From the admin handler (src/unnamed/part_001), handleRequestScreenshot:
the request goes to the session room; the 30-second timer is registered on
the requesting socket; the confirmation goes back to the requester. When no
response arrives the scheduled emissions are delivered exactly as listed. -/

/-- handleRequestScreenshot of the admin handler, as the list of emissions
it performs or schedules (the timeout callback carries delay 30000). -/
def handleRequestScreenshot (adminConn : String) (sid : String)
    (hasPermission : Bool) : List Emission :=
  if hasPermission then
    [⟨Target.room ("session_" ++ sid), "screenshot_requested", some sid, 0⟩,
     ⟨Target.socket adminConn, "screenshot_timeout", some sid, 30000⟩,
     ⟨Target.socket adminConn, "screenshot_request_sent", some sid, 0⟩]
  else
    [⟨Target.socket adminConn, "error", none, 0⟩]

/-! ### Session cleanup sweep
From websocket-service/src/services/sessionManager.js,
cleanupExpiredSessions: collect the sessions inactive for more than the
hard-coded two hours, then delete each collected id; nothing is emitted. -/

/-- A registry entry, reduced to the fields the sweep reads. -/
structure StoredSession where
  id : String
  lastActivity : ℤ
deriving DecidableEq

/-- The expiry test of cleanupExpiredSessions: inactivity strictly above
2 * 60 * 60 * 1000 milliseconds. -/
def sessionExpired (now : ℤ) (s : StoredSession) : Bool :=
  decide (2 * 60 * 60 * 1000 < now - s.lastActivity)

/-- deleteSession of sessionManager.js: remove the entry with that id. -/
def deleteSession (sessions : List StoredSession) (sid : String) : List StoredSession :=
  sessions.filter (fun s => !(s.id == sid))

/-- cleanupExpiredSessions of sessionManager.js: the collected expired ids,
the registry after deleting each of them, and the lifecycle events emitted
while doing so (the source emits none). -/
def cleanupExpiredSessions (now : ℤ) (sessions : List StoredSession) :
    List String × List StoredSession × List Emission :=
  let expiredIds := (sessions.filter (sessionExpired now)).map (fun s => s.id)
  (expiredIds, expiredIds.foldl deleteSession sessions, [])

/-- The session_flagged emission flagSession sends to the admin_monitoring
room (its payload carries the sessionId). -/
def adminFlagEmission (sid : String) : Emission :=
  ⟨Target.room "admin_monitoring", "session_flagged", some sid, 0⟩

/-- The session_flagged emission flagSession sends to the own room of the
session (its payload is only a message, with no sessionId field). -/
def sessionRoomFlagEmission (sid : String) : Emission :=
  ⟨Target.room ("session_" ++ sid), "session_flagged", none, 0⟩

/-! ## Theorems -/

/-- Appending on the left is cancellable in string equations. -/
theorem string_append_left_cancel (s a b : String) (h : s ++ a = s ++ b) : a = b := by
  rcases s with ⟨ls⟩
  rcases a with ⟨la⟩
  rcases b with ⟨lb⟩
  have h2 : ls ++ la = ls ++ lb := congrArg String.data h
  exact congrArg String.mk (List.append_cancel_left h2)

/-- C3: for every violation type and every confidence, the derived severity
agrees with the specification wording (critical if the type is in the
critical set or confidence at least 0.9; else high if in the high set or at
least 0.7; else medium if in the medium set or at least 0.5; else low, the
default bucket covering unknown types), and the derivation is total: its
value is always one of the four severity levels. -/
theorem c3_severity_total_function (vtype : String) (confidence : ℚ) :
    getAlertSeverity vtype confidence = severitySpecification vtype confidence
      ∧ getAlertSeverity vtype confidence ∈ ["critical", "high", "medium", "low"] := by
  unfold getAlertSeverity severitySpecification
  constructor
  · split_ifs <;> simp_all [List.elem_iff]
  · split_ifs <;> simp

/-- C6: the classifier maps every behavior event through the fixed table of
the specification: tab_switch gives one violation with confidence 0.9,
copy_paste one with 0.95, a key combination containing ctrl together with c
or v one with 0.8, window_blur one with 0.7, fullscreen_exit one with 0.8, a
right_click whose context is text selection one with 0.6, and any other
event kind gives no violations. -/
theorem c6_classifier_fixed_table (e : BehaviorEvent) :
    (analyzeBehavior e).map (fun v => v.confidence) = classifierConfidenceTable e := by
  unfold analyzeBehavior classifierConfidenceTable
  split_ifs <;> simp_all

/-- C4: a violation missing sessionId, type, confidence or timestamp, or
whose confidence lies outside the closed interval from 0 to 1, is rejected:
handleViolationDetected emits exactly one error emission to the reporting
socket and leaves the processing queue unchanged. -/
theorem c4_invalid_violation_rejected (studentConn : String)
    (queue : List IncomingViolation) (v : IncomingViolation)
    (h : v.sessionId = none ∨ v.type = none ∨ v.confidence = none ∨ v.timestamp = none
      ∨ ∃ c, v.confidence = some c ∧ (c < 0 ∨ 1 < c)) :
    handleViolationDetected studentConn queue v
      = (queue, [⟨Target.socket studentConn, "error", none, 0⟩]) := by
  have hv : validateViolation v = false := by
    unfold validateViolation
    rcases h with h | h | h | h | ⟨c, hc, hrange⟩
    · simp [h, jsTruthyString]
    · simp [h, jsTruthyString]
    · simp [h, jsTruthyRat]
    · simp [h, jsTruthyInt]
    · simp [hc, confidenceInRange]
      intro _ _ _ _ _ h0
      rcases hrange with h1 | h1
      · exact absurd h0 (not_le.mpr h1)
      · exact h1
  unfold handleViolationDetected
  simp [hv]

/-- C4 witness: a violation with confidence 1.5 and all other fields present
is rejected and never queued. -/
theorem c4_invalid_violation_rejected_witness :
    (1 : ℚ) < mkRat 3 2
    ∧ handleViolationDetected "conn1" []
        ⟨some "sess1", some "user1", some "tab_switch", some (mkRat 3 2), some "d", some 5⟩
      = ([], [⟨Target.socket "conn1", "error", none, 0⟩]) :=
  ⟨by decide,
    c4_invalid_violation_rejected "conn1" []
      ⟨some "sess1", some "user1", some "tab_switch", some (mkRat 3 2), some "d", some 5⟩
      (Or.inr (Or.inr (Or.inr (Or.inr ⟨mkRat 3 2, rfl, Or.inr (by decide)⟩))))⟩

/-- C10: validation tests required fields for JavaScript truthiness rather
than presence, so a violation whose confidence is exactly 0 (a value inside
the allowed range), or whose sessionId or type is the empty string, or whose
timestamp is 0, fails validateViolation and is rejected without being
queued. -/
theorem c10_truthiness_validation (studentConn : String)
    (queue : List IncomingViolation) (v : IncomingViolation)
    (h : v.confidence = some 0 ∨ v.sessionId = some "" ∨ v.type = some ""
      ∨ v.timestamp = some 0) :
    validateViolation v = false
      ∧ handleViolationDetected studentConn queue v
        = (queue, [⟨Target.socket studentConn, "error", none, 0⟩]) := by
  have hv : validateViolation v = false := by
    unfold validateViolation
    rcases h with h | h | h | h <;> simp [h, jsTruthyRat, jsTruthyString, jsTruthyInt]
  exact ⟨hv, by unfold handleViolationDetected; simp [hv]⟩

/-- C10 witness: a violation with confidence exactly 0 and every other field
present and truthy is rejected and never queued. -/
theorem c10_truthiness_validation_witness :
    (⟨some "sess1", some "user1", some "tab_switch", some 0, some "d", some 5⟩ :
        IncomingViolation).confidence = some 0
    ∧ validateViolation
        ⟨some "sess1", some "user1", some "tab_switch", some 0, some "d", some 5⟩ = false
    ∧ handleViolationDetected "conn1" []
        ⟨some "sess1", some "user1", some "tab_switch", some 0, some "d", some 5⟩
      = ([], [⟨Target.socket "conn1", "error", none, 0⟩]) :=
  ⟨rfl,
    (c10_truthiness_validation "conn1" []
      ⟨some "sess1", some "user1", some "tab_switch", some 0, some "d", some 5⟩
      (Or.inl rfl)).1,
    (c10_truthiness_validation "conn1" []
      ⟨some "sess1", some "user1", some "tab_switch", some 0, some "d", some 5⟩
      (Or.inl rfl)).2⟩

/-- C5 counterexample: a non-critical, low-confidence violation (unknown
type, confidence 0.3, derived severity low) still produces an emission to
the global observer room admin_monitoring, contradicting the claim that it
reaches only the owning session room: notifyAdmins always sends the regular
violation_notification there. -/
theorem c5_noncritical_observer_counterexample :
    getAlertSeverity "unknown_event" (mkRat 3 10) ≠ "critical"
    ∧ mkRat 3 10 < mkRat 5 10
    ∧ (broadcastViolation "conn1" "sess1" "unknown_event" (mkRat 3 10)).countP
        (fun em => match em.target with
          | Target.room r => r == "admin_monitoring"
          | Target.socket _ => false) ≠ 0 :=
  ⟨by decide, by decide, by decide⟩

/-- C5 amended: broadcasting an accepted violation always emits the alert to
the owning student socket and always emits exactly one regular
violation_notification to the global observer room; the second, emergency
critical_violation emission to the observer room occurs exactly when the
derived severity is critical (so a non-critical, low-confidence violation
still reaches the observer room once, but without the emergency emission). -/
theorem c5_broadcast_fanout_amended (studentConn sid vtype : String) (confidence : ℚ) :
    (broadcastViolation studentConn sid vtype confidence).countP
        (fun em => em == ⟨Target.room "admin_monitoring", "violation_notification", some sid, 0⟩)
      = 1
    ∧ (broadcastViolation studentConn sid vtype confidence).countP
        (fun em => em == ⟨Target.room "admin_monitoring", "critical_violation", some sid, 0⟩)
      = (if getAlertSeverity vtype confidence = "critical" then 1 else 0)
    ∧ (broadcastViolation studentConn sid vtype confidence).countP
        (fun em => em == ⟨Target.socket studentConn, "violation_alert", none, 0⟩) = 1 := by
  unfold broadcastViolation sendViolationAlert notifyAdmins
  refine ⟨?_, ?_, ?_⟩ <;> split_ifs <;> simp_all [List.countP_append, List.countP_cons]

/-- C7: a bulk action processes the session ids sequentially in list order,
returns exactly one per-item entry per input id (in order), marks an item
success exactly when its backend call succeeds and error when it fails, and
a failing item does not abort the remaining items; in particular, with a
backend failing only on sB, the input sA, sB, sC yields success, error,
success. -/
theorem c7_bulk_action_isolation (backend : String → String → Except String String)
    (action : String) (sessionIds : List String) :
    (handleBulkAction backend action sessionIds).length = sessionIds.length
    ∧ (handleBulkAction backend action sessionIds).map (fun r => r.sessionId) = sessionIds
    ∧ (handleBulkAction backend action sessionIds).map (fun r => r.status)
      = sessionIds.map (fun sid =>
          match performBulkItem backend action sid with
          | Except.ok _ => "success"
          | Except.error _ => "error")
    ∧ (handleBulkAction demoBulkBackend "terminate" ["sA", "sB", "sC"]).map (fun r => r.status)
      = ["success", "error", "success"] := by
  refine ⟨?_, ?_, ?_, by decide⟩
  · simp [handleBulkAction]
  · unfold handleBulkAction
    rw [List.map_map]
    conv_rhs => rw [show sessionIds = sessionIds.map id from (List.map_id sessionIds).symm]
    apply List.map_congr_left
    intro sid _
    simp only [Function.comp]
    cases h : performBulkItem backend action sid <;> simp [h]
  · unfold handleBulkAction
    rw [List.map_map]
    apply List.map_congr_left
    intro sid _
    simp only [Function.comp]
    cases h : performBulkItem backend action sid <;> simp [h]

/-- C8: when a screenshot request gets no response, exactly one
screenshot_timeout emission is delivered, it targets the requesting observer
socket only, it is scheduled at the 30 second timeout, and zero timeout
emissions target the room of the session owner. -/
theorem c8_screenshot_timeout_requester_only (adminConn sid : String) :
    ((handleRequestScreenshot adminConn sid true).filter
        (fun em => em.event == "screenshot_timeout")).map (fun em => em.target)
      = [Target.socket adminConn]
    ∧ ((handleRequestScreenshot adminConn sid true).filter
        (fun em => em.event == "screenshot_timeout")).map (fun em => em.delayMs) = [30000]
    ∧ (handleRequestScreenshot adminConn sid true).countP
        (fun em => em.event == "screenshot_timeout"
          && em.target == Target.room ("session_" ++ sid)) = 0 := by
  refine ⟨?_, ?_, ?_⟩ <;> simp [handleRequestScreenshot, List.countP_cons]

/-- Folding addition of a mapped value equals adding the sum of the map. -/
theorem foldl_add_eq_sum (f : DbViolation → ℚ) (a : ℚ) (l : List DbViolation) :
    l.foldl (fun t v => t + f v) a = a + (l.map f).sum := by
  induction l generalizing a with
  | nil => simp
  | cons x l ih => simp [ih, add_assoc]

/-- Every severity weight of calculate_risk_score is nonnegative. -/
theorem severityWeight_nonneg (s : DbSeverity) : 0 ≤ severityWeight s := by
  cases s <;> decide

/-- C2: the stored risk score of a session equals the sum over its
violations of confidence times the severity weight, capped at 1.0; the
computation is a pure fold, hence order-independent (any permutation of the
violation set gives the same score), and when every confidence lies in
[0, 1] the result lies in [0, 1] as well (idempotence is immediate since
calculate_risk_score is a function of the violation set alone). -/
theorem c2_risk_score_pure_fold (vs vs2 : List DbViolation) (hperm : vs.Perm vs2)
    (hconf : ∀ v ∈ vs, 0 ≤ v.confidence ∧ v.confidence ≤ 1) :
    calculate_risk_score vs
      = min ((vs.map (fun v => v.confidence * severityWeight v.severity)).sum) 1
    ∧ calculate_risk_score vs = calculate_risk_score vs2
    ∧ 0 ≤ calculate_risk_score vs ∧ calculate_risk_score vs ≤ 1 := by
  have hmin : ∀ l : List DbViolation, calculate_risk_score l
      = min ((l.map (fun v => v.confidence * severityWeight v.severity)).sum) 1 := by
    intro l
    unfold calculate_risk_score
    rw [foldl_add_eq_sum (fun v => v.confidence * severityWeight v.severity) 0 l, zero_add]
    rcases lt_or_le 1 ((l.map (fun v => v.confidence * severityWeight v.severity)).sum) with h | h
    · rw [if_pos h, min_eq_right (le_of_lt h)]
    · rw [if_neg (not_lt.mpr h), min_eq_left h]
  have hsum_eq : ((vs.map (fun v => v.confidence * severityWeight v.severity)).sum)
      = ((vs2.map (fun v => v.confidence * severityWeight v.severity)).sum) :=
    (hperm.map (fun v => v.confidence * severityWeight v.severity)).sum_eq
  have hnonneg : 0 ≤ (vs.map (fun v => v.confidence * severityWeight v.severity)).sum := by
    apply List.sum_nonneg
    intro x hx
    rcases List.mem_map.mp hx with ⟨v, hv, rfl⟩
    exact mul_nonneg (hconf v hv).1 (severityWeight_nonneg v.severity)
  refine ⟨hmin vs, ?_, ?_, ?_⟩
  · rw [hmin vs, hmin vs2, hsum_eq]
  · rw [hmin vs]
    exact le_min hnonneg zero_le_one
  · rw [hmin vs]
    exact min_le_right _ 1

/-- C2 witness: a concrete two-violation set, its swap as the permutation,
confidences 0.9 and 1 inside the unit interval. -/
theorem c2_risk_score_pure_fold_witness :
    ([⟨mkRat 9 10, DbSeverity.critical⟩, (⟨1, DbSeverity.high⟩ : DbViolation)].Perm
        [⟨1, DbSeverity.high⟩, ⟨mkRat 9 10, DbSeverity.critical⟩])
    ∧ calculate_risk_score [⟨mkRat 9 10, DbSeverity.critical⟩, ⟨1, DbSeverity.high⟩]
      = calculate_risk_score [⟨1, DbSeverity.high⟩, ⟨mkRat 9 10, DbSeverity.critical⟩]
    ∧ 0 ≤ calculate_risk_score [⟨mkRat 9 10, DbSeverity.critical⟩, ⟨1, DbSeverity.high⟩]
    ∧ calculate_risk_score [⟨mkRat 9 10, DbSeverity.critical⟩, ⟨1, DbSeverity.high⟩] ≤ 1 :=
  ⟨by decide,
    (c2_risk_score_pure_fold [⟨mkRat 9 10, DbSeverity.critical⟩, ⟨1, DbSeverity.high⟩]
      [⟨1, DbSeverity.high⟩, ⟨mkRat 9 10, DbSeverity.critical⟩] (by decide) (by decide)).2⟩

/-- Deleting a list of ids one by one filters out exactly the entries whose
id occurs in that list. -/
theorem foldl_deleteSession_eq_filter (ids : List String) (ss : List StoredSession) :
    ids.foldl deleteSession ss = ss.filter (fun s => !(ids.contains s.id)) := by
  induction ids generalizing ss with
  | nil => simp
  | cons i ids ih =>
    rw [List.foldl_cons, ih (deleteSession ss i)]
    unfold deleteSession
    rw [List.filter_filter]
    apply List.filter_congr
    intro s _
    simp [beq_iff_eq, Bool.and_comm]
    by_cases h : s.id = i <;> simp [h]

/-- C9 counterexample: a session three hours inactive is removed by the
sweep, yet the list of lifecycle events emitted by the sweep is empty, so no
ended-by-timeout event precedes the removal as the claim requires (and the
threshold the sweep applies is the hard-coded two hours of
cleanupExpiredSessions, not a configurable policy value). -/
theorem c9_cleanup_counterexample :
    (cleanupExpiredSessions 10800000 [⟨"s1", 0⟩]).1 = ["s1"]
    ∧ (cleanupExpiredSessions 10800000 [⟨"s1", 0⟩]).2.2 = [] :=
  ⟨by decide, rfl⟩

/-- C9 amended: when registry ids are distinct (they are keys of a Map in
the source), the sweep removes exactly the sessions whose inactivity
strictly exceeds the fixed constant of two hours (2 times 60 times 60 times
1000 milliseconds, hard-coded rather than configurable), keeps exactly the
others, and emits no lifecycle event while doing so. -/
theorem c9_cleanup_fixed_threshold_amended (now : ℤ) (sessions : List StoredSession)
    (hnodup : (sessions.map (fun s => s.id)).Nodup) :
    (cleanupExpiredSessions now sessions).1
      = (sessions.filter (sessionExpired now)).map (fun s => s.id)
    ∧ (cleanupExpiredSessions now sessions).2.1
      = sessions.filter (fun s => !(sessionExpired now s))
    ∧ (cleanupExpiredSessions now sessions).2.2 = [] := by
  have key : ∀ s ∈ sessions,
      ((sessions.filter (sessionExpired now)).map (fun s => s.id)).contains s.id
        = sessionExpired now s := by
    intro s hs
    cases hexp : sessionExpired now s with
    | true =>
      have hmem : s.id ∈ (sessions.filter (sessionExpired now)).map (fun s => s.id) :=
        List.mem_map.mpr ⟨s, List.mem_filter.mpr ⟨hs, hexp⟩, rfl⟩
      simpa using hmem
    | false =>
      cases hc : ((sessions.filter (sessionExpired now)).map (fun s => s.id)).contains s.id with
      | false => rfl
      | true =>
        exfalso
        have hmem : s.id ∈ (sessions.filter (sessionExpired now)).map (fun s => s.id) := by
          simpa using hc
        rcases List.mem_map.mp hmem with ⟨s2, hs2f, hid⟩
        rcases List.mem_filter.mp hs2f with ⟨hs2, hexp2⟩
        have heq : s2 = s := List.inj_on_of_nodup_map hnodup hs2 hs hid
        rw [heq, hexp] at hexp2
        exact Bool.false_ne_true hexp2
  refine ⟨rfl, ?_, rfl⟩
  show ((sessions.filter (sessionExpired now)).map (fun s => s.id)).foldl deleteSession sessions
    = sessions.filter (fun s => !(sessionExpired now s))
  rw [foldl_deleteSession_eq_filter]
  apply List.filter_congr
  intro s hs
  show (!((sessions.filter (sessionExpired now)).map (fun s => s.id)).contains s.id)
    = (!(sessionExpired now s))
  rw [key s hs]

/-- C9 witness: a registry with two distinct ids, one session expired and
one active, at a concrete clock value. -/
theorem c9_cleanup_fixed_threshold_amended_witness :
    ((([⟨"s1", 0⟩, ⟨"s2", 10000000⟩] : List StoredSession).map (fun s => s.id)).Nodup)
    ∧ (cleanupExpiredSessions 10800000 [⟨"s1", 0⟩, ⟨"s2", 10000000⟩]).2.2 = [] :=
  ⟨by decide,
    (c9_cleanup_fixed_threshold_amended 10800000 [⟨"s1", 0⟩, ⟨"s2", 10000000⟩] (by decide)).2.2⟩

/-- Counting over a flatMap sums the per-key counts. -/
theorem countP_flatMap (p : Emission → Bool) (f : String → List Emission) (l : List String) :
    List.countP p (l.flatMap f) = (l.map (fun a => List.countP p (f a))).sum := by
  induction l with
  | nil => simp
  | cons a l ih => simp [List.countP_append, ih]

/-- The group of one session contributes the admin flag emission for a
target session exactly when it is that session and its critical count
reaches two. -/
theorem countP_processSession_admin (k sid : String) (g : List QueuedViolation) :
    (processSessionViolations k g).countP (fun em => em == adminFlagEmission sid)
      = if k = sid ∧ 2 ≤ (criticalViolationsOf g).length then 1 else 0 := by
  unfold processSessionViolations flagSession
  split_ifs with hflag hks hks
  · rcases hks with ⟨rfl, _⟩
    simp [List.countP_cons, adminFlagEmission]
  · have hk : ¬ k = sid := by
      intro hkk
      exact hks ⟨hkk, hflag⟩
    simp [List.countP_cons, adminFlagEmission, hk]
  · exact absurd hks.2 hflag
  · simp

/-- The group of one session contributes the session-room flag emission for
a target session exactly when it is that session and its critical count
reaches two. -/
theorem countP_processSession_room (k sid : String) (g : List QueuedViolation) :
    (processSessionViolations k g).countP (fun em => em == sessionRoomFlagEmission sid)
      = if k = sid ∧ 2 ≤ (criticalViolationsOf g).length then 1 else 0 := by
  unfold processSessionViolations flagSession
  split_ifs with hflag hks hks
  · rcases hks with ⟨rfl, _⟩
    simp [List.countP_cons, sessionRoomFlagEmission]
  · have hk : ¬ k = sid := by
      intro hkk
      exact hks ⟨hkk, hflag⟩
    have hroom : ("session_" ++ k : String) ≠ "session_" ++ sid := by
      intro hr
      exact hk (string_append_left_cancel "session_" k sid hr)
    simp [List.countP_cons, sessionRoomFlagEmission, hroom]
  · exact absurd hks.2 hflag
  · simp

/-- Adding a key preserves distinctness of the key list. -/
theorem addSessionKey_nodup (ks : List String) (sid : String) (h : ks.Nodup) :
    (addSessionKey ks sid).Nodup := by
  unfold addSessionKey
  split_ifs with hc
  · exact h
  · have hnm : sid ∉ ks := by simpa using hc
    simp [List.nodup_append, h, hnm]

/-- Membership after adding a key. -/
theorem mem_addSessionKey (ks : List String) (sid x : String) :
    x ∈ addSessionKey ks sid ↔ x ∈ ks ∨ x = sid := by
  unfold addSessionKey
  split_ifs with hc
  · constructor
    · exact fun h => Or.inl h
    · rintro (h | rfl)
      · exact h
      · exact List.elem_iff.mp hc
  · simp

/-- The grouping fold keeps the key list distinct. -/
theorem sessionKeysAux_nodup (q : List QueuedViolation) (ks : List String) (h : ks.Nodup) :
    (q.foldl (fun ks v => addSessionKey ks v.sessionId) ks).Nodup := by
  induction q generalizing ks with
  | nil => exact h
  | cons v q ih => exact ih _ (addSessionKey_nodup ks v.sessionId h)

/-- The session keys of a drained batch are distinct, as keys of an object. -/
theorem sessionKeys_nodup (q : List QueuedViolation) : (sessionKeys q).Nodup :=
  sessionKeysAux_nodup q [] List.nodup_nil

/-- Membership in the grouping fold. -/
theorem mem_sessionKeysAux (q : List QueuedViolation) (ks : List String) (x : String) :
    x ∈ q.foldl (fun ks v => addSessionKey ks v.sessionId) ks
      ↔ x ∈ ks ∨ ∃ v ∈ q, v.sessionId = x := by
  induction q generalizing ks with
  | nil => simp
  | cons v q ih =>
    rw [List.foldl_cons, ih (addSessionKey ks v.sessionId)]
    rw [mem_addSessionKey]
    constructor
    · rintro ((h | h) | ⟨w, hw, rfl⟩)
      · exact Or.inl h
      · exact Or.inr ⟨v, List.mem_cons_self v q, h.symm⟩
      · exact Or.inr ⟨w, List.mem_cons_of_mem v hw, rfl⟩
    · rintro (h | ⟨w, hw, rfl⟩)
      · exact Or.inl (Or.inl h)
      · rcases List.mem_cons.mp hw with rfl | hw2
        · exact Or.inl (Or.inr rfl)
        · exact Or.inr ⟨w, hw2, rfl⟩

/-- A session id is a key of the drained batch exactly when some violation
of the batch carries it. -/
theorem mem_sessionKeys (q : List QueuedViolation) (x : String) :
    x ∈ sessionKeys q ↔ ∃ v ∈ q, v.sessionId = x := by
  unfold sessionKeys
  rw [mem_sessionKeysAux]
  simp

/-- Summing an indicator over a distinct key list reduces to one test of the
target key. -/
theorem sum_if_mem (keys : List String) (sid : String) (P : String → Prop)
    [DecidablePred P] (hnodup : keys.Nodup) :
    (keys.map (fun k => if k = sid ∧ P k then (1 : ℕ) else 0)).sum
      = if sid ∈ keys ∧ P sid then 1 else 0 := by
  induction keys with
  | nil => simp
  | cons k ks ih =>
    have hk : k ∉ ks := (List.nodup_cons.mp hnodup).1
    have hks : ks.Nodup := (List.nodup_cons.mp hnodup).2
    rw [List.map_cons, List.sum_cons, ih hks]
    by_cases hkeq : k = sid
    · subst hkeq
      have hnm : ¬ (k ∈ ks ∧ P k) := fun h => hk h.1
      by_cases hp : P k
      · simp [hp, hnm, hk]
      · have h5 : ¬ (k = k ∧ P k) := fun h => hp h.2
        simp [h5, hnm, hp]
    · have h1 : ¬ (k = sid ∧ P k) := fun h => hkeq h.1
      rw [if_neg h1, Nat.zero_add]
      by_cases hmem : sid ∈ ks
      · have h4 : sid ∈ k :: ks := List.mem_cons_of_mem k hmem
        simp [hmem, h4]
      · have h2 : ¬ (sid ∈ ks ∧ P sid) := fun h => hmem h.1
        have h3 : ¬ ((sid = k ∨ sid ∈ ks) ∧ P sid) := by
          rintro ⟨rfl | hm2, hp⟩
          · exact hkeq rfl
          · exact hmem hm2
        simp [h2, h3]

/-- C1: in every drained batch of the aggregator tick and for every session,
when the drained group of that session holds at least two violations of
derived severity critical, the tick emits the session-flagged notification
exactly once to the admin_monitoring observer room and exactly once to the
own room of the session (one flag per batch, not one per critical
violation); when the group holds zero or one critical violations, the tick
emits no flag for that session. -/
theorem c1_aggregator_flags_once (queue : List QueuedViolation) (sid : String) :
    (processViolationQueue queue).countP (fun em => em == adminFlagEmission sid)
      = (if 2 ≤ (criticalViolationsOf (sessionGroup queue sid)).length then 1 else 0)
    ∧ (processViolationQueue queue).countP (fun em => em == sessionRoomFlagEmission sid)
      = (if 2 ≤ (criticalViolationsOf (sessionGroup queue sid)).length then 1 else 0) := by
  have hkeys_nodup := sessionKeys_nodup queue
  have hgroup_empty : sid ∉ sessionKeys queue → sessionGroup queue sid = [] := by
    intro hnm
    apply List.filter_eq_nil_iff.mpr
    intro v hv hbeq
    exact hnm ((mem_sessionKeys queue sid).mpr ⟨v, hv, by simpa using hbeq⟩)
  have hflag_mem : 2 ≤ (criticalViolationsOf (sessionGroup queue sid)).length
      → sid ∈ sessionKeys queue := by
    intro h2
    by_contra hnm
    rw [hgroup_empty hnm] at h2
    simp [criticalViolationsOf] at h2
  constructor
  · unfold processViolationQueue
    rw [countP_flatMap]
    rw [List.map_congr_left (fun k _ => countP_processSession_admin k sid (sessionGroup queue k))]
    rw [sum_if_mem (sessionKeys queue) sid
      (fun k => 2 ≤ (criticalViolationsOf (sessionGroup queue k)).length) hkeys_nodup]
    by_cases hp : 2 ≤ (criticalViolationsOf (sessionGroup queue sid)).length
    · simp [hp, hflag_mem hp]
    · simp [hp]
  · unfold processViolationQueue
    rw [countP_flatMap]
    rw [List.map_congr_left (fun k _ => countP_processSession_room k sid (sessionGroup queue k))]
    rw [sum_if_mem (sessionKeys queue) sid
      (fun k => 2 ≤ (criticalViolationsOf (sessionGroup queue k)).length) hkeys_nodup]
    by_cases hp : 2 ≤ (criticalViolationsOf (sessionGroup queue sid)).length
    · simp [hp, hflag_mem hp]
    · simp [hp]
